import Mathlib

/-
  Verification of the SMARTS local traffic micro-simulator core against its
  natural-language specification.

  Shallow embedding of:
  - smarts/core/utils/kinematics.py        (time_to_cover, distance_covered)
  - smarts/core/local_traffic_provider.py  (acceleration gates, lane-window
    time computation, cut-in persistence, flow emission, actor construction,
    provider teardown, and the two-phase decide/commit tick loop)

  Python floats are modelled by real numbers (where square roots occur) or by
  rationals (elsewhere); `math.inf` is modelled by `⊤` of `WithTop ℝ` or by a
  dedicated extended-rational type; operations that can raise Python
  exceptions (ZeroDivisionError, AttributeError, AssertionError) are modelled
  as `Option`/`Except` values with `none`/`.error` for the raising outcome.
-/

namespace Smarts

/-! ## Kinematics (smarts/core/utils/kinematics.py)

`time_to_cover(dist, speed, acc)`, translated line by line.  Note that the
source guard for the "negligible acceleration" linear branch is written
`abs(acc) < 1e9` (one billion), so the quadratic branch below it is reachable
only for |acc| ≥ 1e9. -/

noncomputable def time_to_cover (dist speed acc : ℝ) : WithTop ℝ :=
  if dist = 0 then ((0 : ℝ) : WithTop ℝ)
  else if |acc| < 1e9 then
    if speed = 0 then ⊤
    else
      let t := dist / speed
      if 0 ≤ t then ((t : ℝ) : WithTop ℝ) else ⊤
  else
    let discriminant := speed ^ 2 + 2 * acc * dist
    if discriminant < 0 then ⊤
    else
      let rad := Real.sqrt discriminant
      let t1 := (rad - speed) / acc
      let t2 := -(rad + speed) / acc
      let mnt := min t1 t2
      if 0 ≤ mnt then ((mnt : ℝ) : WithTop ℝ)
      else
        let mxt := max t1 t2
        if 0 ≤ mxt then ((mxt : ℝ) : WithTop ℝ) else ⊤

noncomputable def distance_covered (time speed acc : ℝ) : ℝ :=
  time * (speed + 0.5 * acc * time)

/-- Helper: on the linear branch (any |acc| < 1e9, in particular acc = 0),
with nonzero dist, `time_to_cover` returns dist/speed when that is
non-negative, +∞ otherwise. -/
lemma time_to_cover_linear (d s : ℝ) (hd : d ≠ 0) :
    time_to_cover d s 0 =
      if s = 0 then ⊤
      else if 0 ≤ d / s then ((d / s : ℝ) : WithTop ℝ) else ⊤ := by
  unfold time_to_cover
  rw [if_neg hd, if_pos (by norm_num)]

/-- C1: the kinematic helpers at the S1 inputs.  Three of the four identities
hold, but `time_to_cover(10, 0, 2)` returns +∞, not sqrt 10: because the
negligible-acceleration guard is `abs(acc) < 1e9`, acc = 2 takes the linear
branch, which returns +∞ at speed = 0.  The quadratic branch (the one that
would produce sqrt 10) is unreachable for any |acc| < 10⁹. -/
theorem c1_kinematic_identities :
    time_to_cover 10 5 0 = ((2 : ℝ) : WithTop ℝ) ∧
    time_to_cover 10 0 2 = ⊤ ∧
    ((⊤ : WithTop ℝ) ≠ ((Real.sqrt 10 : ℝ) : WithTop ℝ)) ∧
    time_to_cover 10 0 0 = ⊤ ∧
    distance_covered 2 5 1 = 12 := by
  refine ⟨?_, ?_, ?_, ?_, ?_⟩
  · rw [time_to_cover_linear 10 5 (by norm_num)]
    norm_num
  · unfold time_to_cover
    norm_num
  · exact fun h => WithTop.coe_ne_top h.symm
  · rw [time_to_cover_linear 10 0 (by norm_num)]
    norm_num
  · unfold distance_covered
    norm_num

/-- C8 counterexample: the claim asserts `time_to_cover(d, s, 0) = d/s` for
every d and every s > 0, but at d = -1, s = 1 the code returns +∞ (the
computed t = -1 is negative, so the `t if t >= 0 else math.inf` guard
fires), while d/s = -1. -/
theorem c8_counterexample :
    time_to_cover (-1) 1 0 ≠ (((-1 : ℝ) / (1 : ℝ) : ℝ) : WithTop ℝ) ∧
    time_to_cover (-1) 1 0 = ⊤ := by
  have h : time_to_cover (-1) 1 0 = ⊤ := by
    rw [time_to_cover_linear (-1) 1 (by norm_num)]
    norm_num
  exact ⟨by rw [h]; exact WithTop.top_ne_coe, h⟩

/-- C8 (amended): `time_to_cover(0, s, a) = 0` for all s, a;
`time_to_cover(d, 0, 0) = +∞` for d > 0; `time_to_cover(d, s, 0) = d/s` for
every d ≥ 0 (not every d) and s > 0; and for fixed d > 0, acc = 0 the
function is monotone non-increasing in speed. -/
theorem c8_time_to_cover_algebra :
    (∀ s a : ℝ, time_to_cover 0 s a = ((0 : ℝ) : WithTop ℝ)) ∧
    (∀ d : ℝ, 0 < d → time_to_cover d 0 0 = ⊤) ∧
    (∀ d s : ℝ, 0 ≤ d → 0 < s →
      time_to_cover d s 0 = ((d / s : ℝ) : WithTop ℝ)) ∧
    (∀ d s₁ s₂ : ℝ, 0 < d → s₁ ≤ s₂ →
      time_to_cover d s₂ 0 ≤ time_to_cover d s₁ 0) := by
  refine ⟨?_, ?_, ?_, ?_⟩
  · intro s a
    unfold time_to_cover
    simp
  · intro d hd
    rw [time_to_cover_linear d 0 (ne_of_gt hd)]
    norm_num
  · intro d s hd hs
    rcases eq_or_lt_of_le hd with h0 | h0
    · rw [← h0]
      unfold time_to_cover
      simp
    · rw [time_to_cover_linear d s (ne_of_gt h0)]
      rw [if_neg (ne_of_gt hs), if_pos (div_nonneg (le_of_lt h0) (le_of_lt hs))]
  · intro d s₁ s₂ hd hs
    by_cases h1 : 0 < s₁
    · have h2 : 0 < s₂ := lt_of_lt_of_le h1 hs
      rw [time_to_cover_linear d s₁ (ne_of_gt hd),
          time_to_cover_linear d s₂ (ne_of_gt hd)]
      rw [if_neg (ne_of_gt h1), if_neg (ne_of_gt h2),
          if_pos (div_nonneg (le_of_lt hd) (le_of_lt h1)),
          if_pos (div_nonneg (le_of_lt hd) (le_of_lt h2))]
      exact WithTop.coe_le_coe.mpr (by gcongr)
    · have h1' : s₁ ≤ 0 := le_of_not_lt h1
      rcases eq_or_lt_of_le h1' with h0 | h0
      · rw [time_to_cover_linear d s₁ (ne_of_gt hd), h0]
        simp
      · rw [time_to_cover_linear d s₁ (ne_of_gt hd)]
        rw [if_neg (ne_of_lt h0),
            if_neg (not_le.mpr (div_neg_of_pos_of_neg hd h0))]
        exact le_top

/-- C8 witness: the amended theorem instantiated at concrete inputs. -/
theorem c8_witness :
    time_to_cover 0 3 4 = ((0 : ℝ) : WithTop ℝ) ∧
    time_to_cover 10 0 0 = ⊤ ∧
    time_to_cover 10 5 0 = ((10 / 5 : ℝ) : WithTop ℝ) ∧
    time_to_cover 10 4 0 ≤ time_to_cover 10 3 0 :=
  ⟨c8_time_to_cover_algebra.1 3 4,
   c8_time_to_cover_algebra.2.1 10 (by norm_num),
   c8_time_to_cover_algebra.2.2.1 10 5 (by norm_num) (by norm_num),
   c8_time_to_cover_algebra.2.2.2 10 3 4 (by norm_num) (by norm_num)⟩

/-! ## Extended rationals

Python floats as used by `_compute_acceleration` and `_compute_lane_window`
carry `math.inf` (gaps and times-left are initialised to `math.inf`), so we
model those quantities by rationals extended with ±∞.  Division by a float
zero raises `ZeroDivisionError` in Python, hence division returns an
`Option`. -/

inductive ER where
  | negInf : ER
  | fin : ℚ → ER
  | inf : ER
deriving DecidableEq

namespace ER

def ble : ER → ER → Bool
  | negInf, _ => true
  | fin _, negInf => false
  | fin a, fin b => decide (a ≤ b)
  | fin _, inf => true
  | inf, inf => true
  | inf, _ => false

def blt (x y : ER) : Bool := !(ble y x)

def emin (x y : ER) : ER := if ble x y then x else y

def emax (x y : ER) : ER := if ble x y then y else x

/-- Extracts the rational from a finite extended rational (junk elsewhere;
only applied under guards that force finiteness). -/
def toQ : ER → ℚ
  | fin q => q
  | _ => 0

/-- Python float division of an extended value by a finite float: raises
(`none`) on a zero divisor, propagates signed infinities otherwise. -/
def divQ (e : ER) (s : ℚ) : Option ER :=
  if s = 0 then none
  else
    match e with
    | negInf => some (if 0 < s then negInf else inf)
    | fin q => some (fin (q / s))
    | inf => some (if 0 < s then inf else negInf)

end ER

/-- Python float division of two finite floats (`none` models
`ZeroDivisionError`). -/
def qdiv (a b : ℚ) : Option ℚ := if b = 0 then none else some (a / b)

/-- `np.clip(x, lo, hi)`. -/
def clip (x lo hi : ℚ) : ℚ := min (max x lo) hi

/-! ## The longitudinal acceleration gate
(`_TrafficActor._compute_acceleration`, local_traffic_provider.py 927-972) -/

/-- The `time_left`/`gap` summary of a `_LaneWindow` consumed by
`_compute_acceleration`. -/
structure LaneWinK where
  time_left : ER
  gap : ER
deriving DecidableEq

/-- Lines 930-938: `time_cush = max(min(target.time_left, target.gap/speed,
current.time_left, current.gap/speed), 0)`.  Both divisions raise when
`speed == 0`. -/
def timeCush (tgt cur : LaneWinK) (speed : ℚ) : Option ER :=
  match tgt.gap.divQ speed, cur.gap.divQ speed with
  | some a, some b =>
      some (ER.emax (ER.emin (ER.emin (ER.emin tgt.time_left a) cur.time_left) b)
        (ER.fin 0))
  | _, _ => none

/-- `_TrafficActor._compute_acceleration(dt)`.  Parameters are the values the
method reads: the vehicle-type floats (with the source asserts modelled as
`none` on failure), the target and current lane windows, the current speed,
the target speed from `_check_speed`, and the lane-projected
`(my_speed, my_acc)` pair from `_lane_speed`.  The severity divisions by
`tau` and `min_space_cush` are reachable only when the corresponding guard
holds, which forces the denominator positive, so they are plain divisions. -/
def computeAcceleration (emergencyDecel tau minSpaceCush accel decel : ℚ)
    (tgt cur : LaneWinK) (speed targetSpeed mySpeed myAcc dt : ℚ) : Option ℚ :=
  if emergencyDecel < 0 then none
  else
    match timeCush tgt cur speed with
    | none => none
    | some tc =>
      if ER.blt tc (ER.fin tau) then
        if 0 < speed then
          some (-emergencyDecel * clip (3 * (tau - tc.toQ) / tau) 0 1)
        else some 0
      else
        -- `space_cush = max(min(target.gap, current.gap), 0)`, inlined at its
        -- two use sites; likewise P, I = 0, D of the PID are inlined below
        if ER.blt (ER.emax (ER.emin tgt.gap cur.gap) (ER.fin 0))
            (ER.fin minSpaceCush) then
          if 0 < speed then
            some (-emergencyDecel *
              clip (2 * (minSpaceCush -
                  (ER.emax (ER.emin tgt.gap cur.gap) (ER.fin 0)).toQ)
                / minSpaceCush) 0 1)
          else some 0
        else
          match qdiv ((6 / 1000 : ℚ) * (targetSpeed - mySpeed) + 0 +
              -(1 / 1000 : ℚ) * myAcc) dt with
          | none => none
          | some pid0 =>
            if 0 < clip pid0 (-1) 1 then
              if accel < 0 then none else some (clip pid0 (-1) 1 * accel)
            else
              if decel < 0 then none else some (clip pid0 (-1) 1 * decel)

/-- Lines 677-680 of `_compute_lane_window`: `path_len` is the route length
for this lane (defaulting to `lane.length`) minus my offset, and
`lane_time_left = path_len / self.speed` divides by the current speed with
no zero guard. -/
def laneWindowTimeLeft (routeLen : Option ℚ) (laneLength myOffset speed : ℚ) :
    Option ℚ :=
  qdiv (routeLen.getD laneLength - myOffset) speed

/-- The departSpeed token of a flow (`_resolve_flow_speed`). -/
inductive DepartSpeedSpec where
  | random : DepartSpeedSpec
  | max : DepartSpeedSpec
  | speedLimit : DepartSpeedSpec
  | value : ℚ → DepartSpeedSpec
deriving DecidableEq

/-- `_TrafficActor._resolve_flow_speed` (lines 489-505).  A missing
`departSpeed` key defaults to the float `0.0`; `maxSpeed` defaults to 55.5.
The `"max"` branch evaluates `min(max_speed, lane.speed_limit)` which raises
when the speed limit is `None`; the `"speedLimit"` branch raises an explicit
exception in that case; a numeric depart speed is asserted non-negative. -/
def resolveFlowSpeed (departSpeed : Option DepartSpeedSpec)
    (maxSpeedAttr : Option ℚ) (laneSpeedLimit : Option ℚ) (rand : ℚ) :
    Option ℚ :=
  let depart := departSpeed.getD (DepartSpeedSpec.value 0)
  let maxSpeed := maxSpeedAttr.getD (111 / 2 : ℚ)
  match depart with
  | .random => some (rand * maxSpeed)
  | .max =>
    match laneSpeedLimit with
    | some sl => some (min maxSpeed sl)
    | none => none
  | .speedLimit =>
    match laneSpeedLimit with
    | some sl => some sl
    | none => none
  | .value q => if q < 0 then none else some q

lemma timeCush_zero_speed (tgt cur : LaneWinK) : timeCush tgt cur 0 = none := by
  unfold timeCush ER.divQ
  simp

lemma computeAcceleration_zero_speed (eD tau msc acc dec : ℚ)
    (tgt cur : LaneWinK) (tS mS mA dt : ℚ) :
    computeAcceleration eD tau msc acc dec tgt cur 0 tS mS mA dt = none := by
  unfold computeAcceleration
  rw [timeCush_zero_speed]
  split <;> rfl

lemma clip_lower (x lo hi : ℚ) (h : lo ≤ hi) : lo ≤ clip x lo hi :=
  le_min (le_max_right x lo) h

lemma clip_upper (x lo hi : ℚ) : clip x lo hi ≤ hi := min_le_right _ _

/-- Bound for the emergency branches: with a non-negative deceleration
constant, `-eD * clip(sev, 0, 1)` lies in `[-eD, 0]`. -/
lemma neg_mul_clip_bounds (eD s : ℚ) (heD : 0 ≤ eD) :
    -eD ≤ -eD * clip s 0 1 ∧ -eD * clip s 0 1 ≤ 0 := by
  have h1 : 0 ≤ clip s 0 1 := clip_lower s 0 1 (by norm_num)
  have h2 : clip s 0 1 ≤ 1 := clip_upper s 0 1
  constructor <;> nlinarith

/-- C3 counterexample: at speed = 0.1 m/s with the emergency gate firing
(both windows exhausted) and dt = 1 s, the acceleration branch returns
-4.5 < 0 and the committed next speed `speed + a·dt = 0.1 - 4.5 < 0` is
negative, refuting the claimed non-negativity; and at speed == 0 the
acceleration computation raises ZeroDivisionError on `gap / speed`
(modelled as `none`) instead of returning 0. -/
theorem c3_counterexample :
    computeAcceleration (9/2) 1 (5/2) (13/5) (9/2)
        ⟨ER.fin 0, ER.fin 0⟩ ⟨ER.fin 0, ER.fin 0⟩ (1/10) 0 0 0 1
      = some (-(9/2)) ∧
    (1 : ℚ)/10 + (-(9/2)) * 1 < 0 ∧
    computeAcceleration (9/2) 1 (5/2) (13/5) (9/2)
        ⟨ER.fin 0, ER.fin 0⟩ ⟨ER.fin 0, ER.fin 0⟩ 0 0 0 0 1 = none := by
  refine ⟨?_, by norm_num, computeAcceleration_zero_speed _ _ _ _ _ _ _ _ _ _ _⟩
  norm_num [computeAcceleration, timeCush, ER.divQ, ER.emin, ER.emax, ER.ble,
    ER.blt, ER.toQ, clip, max_def, min_def]

/-- C3 (amended): for positive speed and dt, any acceleration `a` the branch
returns satisfies `a ≥ -max(emergencyDecel, decel)`, so the committed next
speed `speed + a·dt` stays non-negative whenever
`speed ≥ max(emergencyDecel, decel)·dt` (for smaller positive speeds it can
go negative, and nothing clamps it); at speed == 0 the computation is
undefined (ZeroDivisionError on `gap / speed`) rather than returning 0. -/
theorem c3_next_speed_bound (eD tau msc acc dec : ℚ) (tgt cur : LaneWinK)
    (speed tS mS mA dt a : ℚ) (hs : 0 < speed) (hdt : 0 < dt)
    (h : computeAcceleration eD tau msc acc dec tgt cur speed tS mS mA dt
          = some a) :
    -(max eD dec) ≤ a ∧
    (max eD dec * dt ≤ speed → 0 ≤ speed + a * dt) ∧
    computeAcceleration eD tau msc acc dec tgt cur 0 tS mS mA dt = none := by
  have hbound : -(max eD dec) ≤ a := by
    unfold computeAcceleration at h
    split at h
    next heD2 => exact absurd h (by simp)
    next heD2 =>
      have heD' : 0 ≤ eD := not_lt.mp heD2
      have hmaxeD : -(max eD dec) ≤ -eD := neg_le_neg (le_max_left eD dec)
      have hmax0 : 0 ≤ max eD dec := le_trans heD' (le_max_left eD dec)
      split at h
      next => exact absurd h (by simp)
      next x tc heq =>
        split at h
        next hblt =>
          have ha := Option.some.inj h
          have hb := (neg_mul_clip_bounds eD (3 * (tau - tc.toQ) / tau) heD').1
          linarith
        next hblt =>
          split at h
          next hsc =>
            have ha := Option.some.inj h
            have hb := (neg_mul_clip_bounds eD
              (2 * (msc - (ER.emax (ER.emin tgt.gap cur.gap) (ER.fin 0)).toQ)
                / msc) heD').1
            linarith
          next hsc =>
            split at h
            next => exact absurd h (by simp)
            next y pid0 heq2 =>
              have hp1 : -1 ≤ clip pid0 (-1) 1 :=
                clip_lower pid0 (-1) 1 (by norm_num)
              split at h
              next hpid =>
                split at h
                next hacc => exact absurd h (by simp)
                next hacc =>
                  have ha := Option.some.inj h
                  have hnn : 0 ≤ clip pid0 (-1) 1 * acc :=
                    mul_nonneg (le_of_lt hpid) (not_lt.mp hacc)
                  linarith
              next hpid =>
                split at h
                next hdec => exact absurd h (by simp)
                next hdec =>
                  have hdec' : 0 ≤ dec := not_lt.mp hdec
                  have ha := Option.some.inj h
                  have hmd : (-1) * dec ≤ clip pid0 (-1) 1 * dec :=
                    mul_le_mul_of_nonneg_right hp1 hdec'
                  have hrd : -(max eD dec) ≤ -dec :=
                    neg_le_neg (le_max_right eD dec)
                  linarith
  refine ⟨hbound, ?_, computeAcceleration_zero_speed _ _ _ _ _ _ _ _ _ _ _⟩
  intro hsd
  have hmul : -(max eD dec) * dt ≤ a * dt :=
    mul_le_mul_of_nonneg_right hbound (le_of_lt hdt)
  nlinarith

/-- C3 witness: the amended theorem at a concrete emergency-braking input
(speed = 5, dt = 1/10, both windows exhausted, default vehicle type). -/
theorem c3_witness :
    -(max (9/2 : ℚ) (9/2)) ≤ -(9/2) ∧
    (max (9/2 : ℚ) (9/2) * (1/10) ≤ 5 → (0 : ℚ) ≤ 5 + -(9/2) * (1/10)) ∧
    computeAcceleration (9/2) 1 (5/2) (13/5) (9/2)
        ⟨ER.fin 0, ER.fin 0⟩ ⟨ER.fin 0, ER.fin 0⟩ 0 0 0 0 (1/10) = none :=
  c3_next_speed_bound (9/2) 1 (5/2) (13/5) (9/2)
    ⟨ER.fin 0, ER.fin 0⟩ ⟨ER.fin 0, ER.fin 0⟩ 5 0 0 0 (1/10) (-(9/2))
    (by norm_num) (by norm_num)
    (by norm_num [computeAcceleration, timeCush, ER.divQ, ER.emin, ER.emax,
      ER.ble, ER.blt, ER.toQ, clip, max_def, min_def])

/-- C4 counterexample: at the S4 inputs the binding term of the minimum is
`target.gap / speed = 0.1 / 20 = 0.005`, so `time_cush = 0.005`, not the
claimed 0.2. -/
theorem c4_counterexample :
    timeCush ⟨ER.fin (1/5), ER.fin (1/10)⟩ ⟨ER.fin 5, ER.fin 5⟩ 20
      ≠ some (ER.fin (1/5)) := by
  norm_num [timeCush, ER.divQ, ER.emin, ER.emax, ER.ble]

/-- C4 (amended): at the S4 inputs, `time_cush = 0.005`; the severity
`3·(1.0 − 0.005)/1.0 = 2.985` is clipped to 1.0; the returned acceleration
is `-emergencyDecel = -4.5`. -/
theorem c4_emergency_brake :
    timeCush ⟨ER.fin (1/5), ER.fin (1/10)⟩ ⟨ER.fin 5, ER.fin 5⟩ 20
      = some (ER.fin (1/200)) ∧
    clip (3 * (1 - 1/200) / 1) 0 1 = 1 ∧
    computeAcceleration (9/2) 1 (5/2) (13/5) (9/2)
        ⟨ER.fin (1/5), ER.fin (1/10)⟩ ⟨ER.fin 5, ER.fin 5⟩ 20 0 0 0 (1/10)
      = some (-(9/2)) := by
  refine ⟨?_, ?_, ?_⟩ <;>
    norm_num [computeAcceleration, timeCush, ER.divQ, ER.emin, ER.emax, ER.ble,
      ER.blt, ER.toQ, clip, max_def, min_def]

/-- C10: at speed == 0, the lane-window computation
(`lane_time_left = path_len / speed`) and the acceleration gate
(`gap / speed`) both raise ZeroDivisionError (modelled as `none`), for every
route length, offset and window; a flow that omits `departSpeed` resolves
the depart speed to the default 0.0; and for nonzero speed the lane window
time-left is well defined — so stepping an actor carries the unstated
precondition speed > 0. -/
theorem c10_zero_speed_partiality :
    (∀ routeLen : Option ℚ, ∀ laneLength myOffset : ℚ,
        laneWindowTimeLeft routeLen laneLength myOffset 0 = none) ∧
    (∀ eD tau msc acc dec : ℚ, ∀ tgt cur : LaneWinK, ∀ tS mS mA dtq : ℚ,
        computeAcceleration eD tau msc acc dec tgt cur 0 tS mS mA dtq = none) ∧
    (∀ mx sl : Option ℚ, ∀ r : ℚ, resolveFlowSpeed none mx sl r = some 0) ∧
    (∀ routeLen : Option ℚ, ∀ laneLength myOffset speed : ℚ, speed ≠ 0 →
        laneWindowTimeLeft routeLen laneLength myOffset speed
          = some ((routeLen.getD laneLength - myOffset) / speed)) := by
  refine ⟨?_, ?_, ?_, ?_⟩
  · intro routeLen laneLength myOffset
    unfold laneWindowTimeLeft qdiv
    simp
  · intro eD tau msc acc dec tgt cur tS mS mA dtq
    exact computeAcceleration_zero_speed _ _ _ _ _ _ _ _ _ _ _
  · intro mx sl r
    unfold resolveFlowSpeed
    simp
  · intro routeLen laneLength myOffset speed hs
    unfold laneWindowTimeLeft qdiv
    rw [if_neg hs]

/-- C10 witness: the precondition instantiated at a concrete nonzero speed. -/
theorem c10_witness :
    laneWindowTimeLeft (some 100) 50 10 0 = none ∧
    laneWindowTimeLeft (some 100) 50 10 5
      = some ((Option.getD (some 100) 50 - 10) / 5) :=
  ⟨c10_zero_speed_partiality.1 (some 100) 50 10,
   c10_zero_speed_partiality.2.2.2 (some 100) 50 10 5 (by norm_num)⟩

/-! ## Cut-in persistence (`_TrafficActor._pick_lane`, lines 834-848)

The persistence state consists of `_cutting_into` (the committed lane window,
identified here by its lane index), the accumulator
`_in_front_after_cutin_secs` (initialised to 0 in `__init__`), and
`_in_front_secs`, which is **not** initialised in `__init__` and only ever
assigned the literal 0 at line 845 (modelled as `Option ℚ`, `none` while the
attribute is unbound; reading it then raises AttributeError).  The hold
constant `_cutin_hold_secs` is 3. -/

def cutinHoldSecs : ℚ := 3

structure CutinState where
  cuttingInto : Option ℕ
  inFrontAfterCutinSecs : ℚ
  inFrontSecs : Option ℚ
deriving DecidableEq

/-- One tick of the cut-in persistence fragment of `_pick_lane` (lines
834-845), given the two data it branches on: whether crossing into the
committed window is still feasible and whether that window is the current
lane.  Returns `(kept, st)` where `kept` records that the loop broke with
`best_lw = self._cutting_into` (commitment retained).  The source increments
`_in_front_after_cutin_secs` but tests and resets `_in_front_secs`. -/
def pickLaneCutinFragment (dt : ℚ) (st : CutinState)
    (feasible inLane : Bool) : Option (Bool × CutinState) :=
  match st.cuttingInto with
  | some _ =>
    if feasible then
      if !inLane then some (true, st)
      else
        match st.inFrontSecs with
        | none => none
        | some ifs =>
          if ifs < cutinHoldSecs then
            some (true,
              { st with inFrontAfterCutinSecs := st.inFrontAfterCutinSecs + dt })
          else
            some (false,
              { cuttingInto := none,
                inFrontAfterCutinSecs := st.inFrontAfterCutinSecs + dt,
                inFrontSecs := some 0 })
    else
      some (false,
        { cuttingInto := none,
          inFrontAfterCutinSecs := st.inFrontAfterCutinSecs,
          inFrontSecs := some 0 })
  | none =>
      some (false,
        { cuttingInto := none,
          inFrontAfterCutinSecs := st.inFrontAfterCutinSecs,
          inFrontSecs := some 0 })

/-- Iterates the persistence fragment over n ticks in which the committed
window stays feasible and equal to the current lane. -/
def cutinTicks (dt : ℚ) : ℕ → CutinState → Option CutinState
  | 0, st => some st
  | n + 1, st =>
    match pickLaneCutinFragment dt st true true with
    | none => none
    | some (_, st1) => cutinTicks dt n st1

/-- C5: after a cut-in commitment has entered its lane (state
`cutting_into = some lane`, `_in_front_secs = 0`), four 1-second ticks with
the crossing still feasible leave the commitment in place with 4 seconds
accumulated — beyond `cutin_hold_secs = 3` — because the release test
compares `_in_front_secs` (reset to 0 on every pass through line 845, and
never incremented) with the hold time, while the dt increments go to the
separate attribute `_in_front_after_cutin_secs`; so `0 < 3` always holds and
the commitment is never released by the timer. -/
theorem c5_cutin_never_released :
    cutinTicks 1 4 ⟨some 0, 0, some 0⟩
      = some ⟨some 0, 4, some 0⟩ ∧
    cutinHoldSecs < 4 := by
  constructor
  · simp [cutinTicks, pickLaneCutinFragment, cutinHoldSecs]
    norm_num
  · norm_num [cutinHoldSecs]

/-! ## Lane-change parameter validation (`_TrafficActor.__init__`, 379-390) -/

/-- The aggressiveness / cut-in-probability validation of
`_TrafficActor.__init__`.  The constructor binds `self._logger` (line 352),
but both warning branches call `self._log.warning(...)`; `_log` is never an
attribute of `_TrafficActor`, so reaching either branch raises
AttributeError before the clamping assignment runs, and construction fails
(modelled as `.error`). -/
def initLaneChangeParams (lcAssertive lcCutinProb : ℚ) :
    Except String (ℚ × ℚ) :=
  if lcAssertive ≤ 0 then .error "AttributeError: self._log"
  else if lcCutinProb < 0 ∨ 1 < lcCutinProb then .error "AttributeError: self._log"
  else .ok (lcAssertive, lcCutinProb)

/-- C7: constructing an actor with non-positive lcAssertive or
out-of-range lcCutinProb does not clamp-and-warn: the warning call itself
raises AttributeError (`self._log` is unbound; the logger is bound as
`self._logger`), so construction fails; in-range parameters are accepted
unchanged. -/
theorem c7_validation_raises :
    initLaneChangeParams 0 0 = .error "AttributeError: self._log" ∧
    initLaneChangeParams (-1) 0 = .error "AttributeError: self._log" ∧
    initLaneChangeParams 1 2 = .error "AttributeError: self._log" ∧
    initLaneChangeParams 1 0 = .ok (1, 0) ∧
    ∀ agg p : ℚ, 0 < agg → 0 ≤ p → p ≤ 1 →
      initLaneChangeParams agg p = .ok (agg, p) := by
  refine ⟨by norm_num [initLaneChangeParams], by norm_num [initLaneChangeParams],
    by norm_num [initLaneChangeParams], by norm_num [initLaneChangeParams], ?_⟩
  intro agg p hagg hp0 hp1
  unfold initLaneChangeParams
  rw [if_neg (not_le.mpr hagg), if_neg (by push_neg; exact ⟨hp0, hp1⟩)]

/-- C7 witness: in-range parameters are accepted unchanged. -/
theorem c7_witness : initLaneChangeParams (1/2) (3/4) = .ok (1/2, 3/4) :=
  c7_validation_raises.2.2.2.2 (1/2) (3/4) (by norm_num) (by norm_num)
    (by norm_num)

/-! ## Provider teardown and destroy (lines 280-286) -/

/-- The three collections that `LocalTrafficProvider.teardown` reassigns:
`_my_actors`, `_other_vehicles`, `_reserved_areas` (each a dict, modelled as
a list of entries of abstract type). -/
structure ProviderCollections (α β γ : Type) where
  myActors : List α
  otherVehicles : List β
  reservedAreas : List γ
deriving DecidableEq

/-- `LocalTrafficProvider.teardown` (lines 280-283): reassigns all three
collections to empty dicts. -/
def teardown (_p : ProviderCollections α β γ) : ProviderCollections α β γ :=
  { myActors := [], otherVehicles := [], reservedAreas := [] }

/-- `LocalTrafficProvider.destroy` (lines 285-286): the body is `pass`. -/
def destroy (p : ProviderCollections α β γ) : ProviderCollections α β γ := p

/-- C9 counterexample: `destroy` does not clear the collections; on a
provider with one managed actor, the actor set is unchanged and non-empty
after `destroy`. -/
theorem c9_counterexample :
    (destroy (⟨[0], [], []⟩ : ProviderCollections ℕ ℕ ℕ)).myActors ≠ [] := by
  simp [destroy]

/-- C9 (amended): `teardown` empties all three provider collections
(managed actors, other vehicles, reserved areas), but `destroy` is a no-op
(`pass`) and clears nothing. -/
theorem c9_teardown_clears (α β γ : Type) (p : ProviderCollections α β γ) :
    (teardown p).myActors = [] ∧
    (teardown p).otherVehicles = [] ∧
    (teardown p).reservedAreas = [] ∧
    destroy p = p :=
  ⟨rfl, rfl, rfl, rfl⟩

/-! ## Flow emission (`LocalTrafficProvider._add_actor_in_flow` 167-179 and
`_add_actors_for_time` 181-188)

Geometry is parameterised: `P` stands for shapely polygons and `its` for
`Polygon.intersects`; an actor carries its plain bbox (`bbox()`) and its
cushion-padded bbox (`bbox(True)`); `mk` stands for
`_TrafficActor.from_flow`. -/

structure FlowK where
  beginTime : ℚ
  endTime : ℚ
  emitPeriod : ℚ
  lastAdded : Option ℚ
deriving DecidableEq

structure ActorE (P : Type) where
  bbox : P
  bboxCushioned : P
deriving DecidableEq

/-- `_add_actor_in_flow`: build the candidate actor, reject if its cushioned
bbox intersects any reserved area or any existing managed actor's bbox,
otherwise append it to the managed actors. -/
def addActorInFlow {P : Type} (its : P → P → Bool) (reserved : List P)
    (actors : List (ActorE P)) (newActor : ActorE P) :
    Option (List (ActorE P)) :=
  if reserved.any fun ra => its ra newActor.bboxCushioned then none
  else if actors.any fun ac => its ac.bbox newActor.bboxCushioned then none
  else some (actors ++ [newActor])

/-- One iteration of the `_add_actors_for_time` loop for a single flow:
skip if `sim_time` is outside `[begin, end)`; attempt emission if
`last_added` is unset or an emission period has elapsed; record
`last_added = sim_time` only on success. -/
def emitStep {P : Type} (its : P → P → Bool) (reserved : List P)
    (mk : FlowK → ActorE P) (simTime : ℚ) (f : FlowK)
    (actors : List (ActorE P)) : FlowK × List (ActorE P) :=
  if ¬ (f.beginTime ≤ simTime ∧ simTime < f.endTime) then (f, actors)
  else if (match f.lastAdded with
           | none => true
           | some la => decide (f.emitPeriod ≤ simTime - la)) then
    match addActorInFlow its reserved actors (mk f) with
    | some actors1 => ({ f with lastAdded := some simTime }, actors1)
    | none => (f, actors)
  else (f, actors)

/-- `_add_actors_for_time(sim_time)`: the loop over all flows, threading the
managed-actor list (an emission by an earlier flow participates in the
collision checks of later flows in the same call). -/
def addActorsForTime {P : Type} (its : P → P → Bool) (reserved : List P)
    (mk : FlowK → ActorE P) (simTime : ℚ) :
    List FlowK → List (ActorE P) → List FlowK × List (ActorE P)
  | [], actors => ([], actors)
  | f :: fs, actors =>
    let fa := emitStep its reserved mk simTime f actors
    let rest := addActorsForTime its reserved mk simTime fs fa.2
    (fa.1 :: rest.1, rest.2)

/-- C6: for a flow that is in its emission window and due, emission is
admitted iff the cushion-padded bbox of the new actor intersects no reserved
area and no existing managed actor's bbox; on success the actor is appended
and `last_added` is set to the current sim time; on failure the attempt is
silent and atomic — the actor list and the flow (in particular
`last_added`) are unchanged, so the flow is still due on the next tick. -/
theorem c6_emission_admission (P : Type) (its : P → P → Bool)
    (reserved : List P) (mk : FlowK → ActorE P) (simTime : ℚ) (f : FlowK)
    (actors : List (ActorE P))
    (hwin : f.beginTime ≤ simTime ∧ simTime < f.endTime)
    (hdue : f.lastAdded = none ∨
      ∃ la, f.lastAdded = some la ∧ f.emitPeriod ≤ simTime - la) :
    ((∀ ra ∈ reserved, its ra (mk f).bboxCushioned = false) ∧
     (∀ ac ∈ actors, its ac.bbox (mk f).bboxCushioned = false)
       ↔ emitStep its reserved mk simTime f actors
           = ({ f with lastAdded := some simTime }, actors ++ [mk f])) ∧
    (¬ ((∀ ra ∈ reserved, its ra (mk f).bboxCushioned = false) ∧
        (∀ ac ∈ actors, its ac.bbox (mk f).bboxCushioned = false)) →
      emitStep its reserved mk simTime f actors = (f, actors)) := by
  have hdueb : (match f.lastAdded with
      | none => true
      | some la => decide (f.emitPeriod ≤ simTime - la)) = true := by
    rcases hdue with h | ⟨la, hla, hper⟩
    · rw [h]
    · rw [hla]
      exact decide_eq_true hper
  have hne : ({ f with lastAdded := some simTime }, actors ++ [mk f])
      ≠ (f, actors) := by
    intro heq
    have h2 := congrArg (fun q => q.2.length) heq
    simp at h2
  unfold emitStep
  rw [if_neg (not_not_intro hwin), if_pos hdueb]
  unfold addActorInFlow
  cases hA : (reserved.any fun ra => its ra (mk f).bboxCushioned) with
  | true =>
    simp only [hA, if_true]
    rcases List.any_eq_true.mp hA with ⟨ra, hmem, hra⟩
    constructor
    · constructor
      · intro hall
        exact absurd (hall.1 ra hmem) (by simp [hra])
      · intro heq
        exact absurd heq.symm hne
    · intro _
      trivial
  | false =>
    have hallA : ∀ ra ∈ reserved, its ra (mk f).bboxCushioned = false := by
      intro ra hmem
      have hx := List.any_eq_false.mp hA ra hmem
      simpa using hx
    simp only [hA, Bool.false_eq_true, if_false]
    cases hB : (actors.any fun ac => its ac.bbox (mk f).bboxCushioned) with
    | true =>
      simp only [hB, if_true]
      rcases List.any_eq_true.mp hB with ⟨ac, hmem, hac⟩
      constructor
      · constructor
        · intro hall
          exact absurd (hall.2 ac hmem) (by simp [hac])
        · intro heq
          exact absurd heq.symm hne
      · intro _
        trivial
    | false =>
      have hallB : ∀ ac ∈ actors, its ac.bbox (mk f).bboxCushioned = false := by
        intro ac hmem
        have hx := List.any_eq_false.mp hB ac hmem
        simpa using hx
      simp only [hB, Bool.false_eq_true, if_false]
      constructor
      · constructor
        · intro _
          trivial
        · intro _
          exact ⟨hallA, hallB⟩
      · intro hno
        exact absurd ⟨hallA, hallB⟩ hno

/-- C6 witness: a due, in-window flow with no reserved areas and no existing
actors emits exactly one actor and records `last_added = sim_time`. -/
theorem c6_witness :
    emitStep (fun _ _ => false : ℕ → ℕ → Bool) [] (fun _ => ⟨0, 0⟩) 1
      ⟨0, 2, 1, none⟩ []
      = (⟨0, 2, 1, some 1⟩, [⟨0, 0⟩]) := by
  have h := c6_emission_admission ℕ (fun _ _ => false) [] (fun _ => ⟨0, 0⟩) 1
    ⟨0, 2, 1, none⟩ [] ⟨by norm_num, by norm_num⟩ (Or.inl rfl)
  exact h.1.mp ⟨by simp, by simp⟩

/-! ## The two-phase tick (`LocalTrafficProvider.step` lines 219-248,
`_TrafficActor.compute_next_state` 974-992, `_TrafficActor.step` 994-998) -/

structure PoseK where
  px : ℝ
  py : ℝ
  heading : ℝ

/-- The committed `VehicleState` fields the tick loop reads and writes. -/
structure VState where
  vehicleId : ℕ
  pose : PoseK
  speed : ℝ
  linAccX : ℝ
  linAccY : ℝ

/-- A managed `_TrafficActor`: its committed state, its actor-local decision
data (`_lane_speed`, `_lane_windows`, `_target_lane_win`, `_cutting_into`,
`_target_speed`, ..., abstracted as `Aux`), and the precomputed `_next_*`
values. -/
structure ActorT (Aux : Type) where
  state : VState
  aux : Aux
  nextPose : PoseK
  nextSpeed : ℝ
  nextLinAccX : ℝ
  nextLinAccY : ℝ

/-- Python `x % m` for a positive modulus (line 986: `target_heading %= 2*pi`). -/
noncomputable def pymod (x m : ℝ) : ℝ := x - m * ⌊x / m⌋

/-- Modelled from the spec: `radians_to_vec` lives in `utils/math.py`, which
is outside the sources; §4.H gives `heading_vec = (cos, sin)`. -/
noncomputable def radians_to_vec (θ : ℝ) : ℝ × ℝ := (Real.cos θ, Real.sin θ)

/-- `_TrafficActor.compute_next_state(dt, all_vehicle_states)` (974-992).
The decision kernel `dk` stands for lines 977-983 (`_compute_lane_speeds`,
`_pick_lane`, `_check_speed`, `_angle_to_lane`, `_compute_acceleration`):
it reads the snapshot, dt and the actor, and yields the updated actor-local
decision data together with the angular velocity and acceleration.  (Those
subroutines assign only actor-local decision fields and value-transparent
provider memo caches of pure map geometry, never any `_state`.)  Lines
985-992 are embedded concretely; the record update leaves `state`
untouched, mirroring that `compute_next_state` never assigns `self._state`
or its fields. -/
noncomputable def computeNextState {Aux : Type}
    (dk : List VState → ℝ → ActorT Aux → Aux × ℝ × ℝ)
    (snapshot : List VState) (dt : ℝ) (a : ActorT Aux) : ActorT Aux :=
  let dec := dk snapshot dt a
  let targetHeading := pymod (a.state.pose.heading + dec.2.1 * dt) (2 * Real.pi)
  let headingVec := radians_to_vec targetHeading
  { a with
    aux := dec.1
    nextLinAccX := dt * dec.2.2 * headingVec.1
    nextLinAccY := dt * dec.2.2 * headingVec.2
    nextSpeed := a.state.speed + dec.2.2 * dt
    nextPose :=
      { px := a.state.pose.px + headingVec.1 * a.state.speed * dt,
        py := a.state.pose.py + headingVec.2 * a.state.speed * dt,
        heading := targetHeading } }

/-- The state-adoption fragment of `_TrafficActor.step` (lines 996-998): the
committed `VehicleState` adopts the precomputed pose, speed and linear
acceleration.  (The rest of `step`, lines 999-1032, re-localises the actor,
touching only actor-local lane/offset/route fields.) -/
def commitState {Aux : Type} (a : ActorT Aux) : ActorT Aux :=
  { a with
    state :=
      { a.state with
        pose := a.nextPose
        speed := a.nextSpeed
        linAccX := a.nextLinAccX
        linAccY := a.nextLinAccY } }

lemma computeNextState_state {Aux : Type}
    (dk : List VState → ℝ → ActorT Aux → Aux × ℝ × ℝ)
    (snapshot : List VState) (dt : ℝ) (a : ActorT Aux) :
    (computeNextState dk snapshot dt a).state = a.state := rfl

/-- The Phase-1 loop of `LocalTrafficProvider.step` (lines 236-237):
`for actor in self._my_actors.values():
actor.compute_next_state(dt, self._all_states)`, where `self._all_states`
is a property recomputed on every iteration from the current managed
actors' committed states followed by the other vehicles, and each actor is
updated in place before the next one runs. -/
noncomputable def phase1Go {Aux : Type}
    (dk : List VState → ℝ → ActorT Aux → Aux × ℝ × ℝ) (dt : ℝ)
    (others : List VState) :
    List (ActorT Aux) → List (ActorT Aux) → List (ActorT Aux)
  | processed, [] => processed
  | processed, a :: rest =>
    phase1Go dk dt others
      (processed ++ [computeNextState dk
        ((processed ++ a :: rest).map ActorT.state ++ others) dt a])
      rest

noncomputable def phase1 {Aux : Type}
    (dk : List VState → ℝ → ActorT Aux → Aux × ℝ × ℝ) (dt : ℝ)
    (others : List VState) (actors : List (ActorT Aux)) : List (ActorT Aux) :=
  phase1Go dk dt others [] actors

lemma phase1Go_spec {Aux : Type}
    (dk : List VState → ℝ → ActorT Aux → Aux × ℝ × ℝ) (dt : ℝ)
    (others : List VState) :
    ∀ rest processed : List (ActorT Aux),
      phase1Go dk dt others processed rest
        = processed ++ rest.map (computeNextState dk
            ((processed ++ rest).map ActorT.state ++ others) dt) := by
  intro rest
  induction rest with
  | nil =>
    intro processed
    simp [phase1Go]
  | cons a rest ih =>
    intro processed
    rw [phase1Go, ih]
    simp [computeNextState_state, List.map_append]

/-- C2: Phase 1 modifies no actor's committed `VehicleState` — the states
after the decide-all loop are exactly the states before it — and therefore,
even though `self._all_states` is recomputed from the live actor objects on
every iteration, each actor's decision observes the one snapshot of states
committed at the end of the previous tick: the sequential in-place loop
equals the simultaneous map over the frozen snapshot, for every decision
kernel, every dt, every insertion order and every set of foreign vehicles.
State mutation happens only in the commit phase, where `_TrafficActor.step`
adopts the precomputed next pose, speed and linear acceleration. -/
theorem c2_phase1_snapshot {Aux : Type}
    (dk : List VState → ℝ → ActorT Aux → Aux × ℝ × ℝ) (dt : ℝ)
    (others : List VState) (actors : List (ActorT Aux)) :
    (phase1 dk dt others actors).map ActorT.state = actors.map ActorT.state ∧
    phase1 dk dt others actors
      = actors.map (computeNextState dk (actors.map ActorT.state ++ others) dt) ∧
    ∀ a : ActorT Aux,
      (commitState a).state.pose = a.nextPose ∧
      (commitState a).state.speed = a.nextSpeed ∧
      (commitState a).state.linAccX = a.nextLinAccX ∧
      (commitState a).state.linAccY = a.nextLinAccY := by
  have h := phase1Go_spec dk dt others actors []
  refine ⟨?_, ?_, ?_⟩
  · rw [phase1, h]
    simp [List.map_map, computeNextState_state]
  · rw [phase1, h]
    simp
  · intro a
    exact ⟨rfl, rfl, rfl, rfl⟩

end Smarts
